import Mathlib

/-!
# LahMa: shallow embedding and verification

A shallow embedding of the LahMa modular security toolkit (Python) in
Lean 4, together with theorems settling the specification claims.

The embedding mirrors the source files:
* `src/core/config.py`    — `find_config_file`, `load_config`
* `src/core/exceptions.py`— the error taxonomy
* `src/lahma.py`          — the CLI dispatcher's log-file resolution
* `src/modules/esxi_tester/__init__.py` — `check_esxi_target`, `run`
* `src/modules/web_fuzzer/__init__.py`  — `run_nuclei`
* `src/modules/honeypot/__init__.py`    — `generate_bait_rules`

Python dictionaries are modelled as association lists (`AL`) over a
YAML-like value type; effects (file existence, environment variables,
network/subprocess outcomes, the process-wide socket timeout) are passed
explicitly as parameters and state.
-/

namespace LahMa

/-- YAML-like values, as produced by `yaml.safe_load`.  Mappings are
association lists preserving insertion order, like Python dicts. -/
inductive Yaml where
  | null : Yaml
  | bool (b : Bool) : Yaml
  | int (n : Int) : Yaml
  | str (s : String) : Yaml
  | list (l : List Yaml) : Yaml
  | map (m : List (String × Yaml)) : Yaml

/-- Association lists standing for Python dicts. -/
abbrev AL := List (String × Yaml)

/-- `d[k]` / `d.get(k)`: first binding of `k`, if any. -/
def alGet (m : AL) (k : String) : Option Yaml :=
  match m with
  | [] => none
  | (k', v) :: rest => if k' = k then some v else alGet rest k

/-- `d[k] = v`: replace the binding of `k`, or append it (Python dicts
keep insertion order and append new keys at the end). -/
def alSet (m : AL) (k : String) (v : Yaml) : AL :=
  match m with
  | [] => [(k, v)]
  | (k', v') :: rest => if k' = k then (k', v) :: rest else (k', v') :: alSet rest k v

/-- `d.setdefault(k, v)`: keep a present binding (even a falsy one),
append `(k, v)` when absent. -/
def alSetdefault (m : AL) (k : String) (v : Yaml) : AL :=
  match alGet m k with
  | some _ => m
  | none => m ++ [(k, v)]

/-- Python truthiness of a YAML value (`None`, `False`, `0`, `""`, `[]`,
`{}` are falsy). -/
def yamlTruthy : Yaml → Bool
  | .null => false
  | .bool b => b
  | .int n => n != 0
  | .str s => s != ""
  | .list l => !l.isEmpty
  | .map m => !m.isEmpty

/-- Truthiness of an optional string (Python `None` and `""` are falsy),
returning the string when truthy. -/
def truthyStr : Option String → Option String
  | some s => if s = "" then none else some s
  | none => none

/-! ## Error taxonomy (`src/core/exceptions.py`)

`PyError` stands for built-in Python exceptions that escape `load_config`
uncaught (they are not `ConfigError`s); `LahMaError` for the repository's
own exception classes, carrying their message. -/

/-- Built-in Python exceptions escaping the loader. -/
inductive PyError where
  /-- `AttributeError`, e.g. calling `.setdefault`/`.get` on a non-dict. -/
  | attrError : PyError
  /-- `TypeError`, e.g. item assignment on a non-dict. -/
  | typeError : PyError
deriving DecidableEq, Repr

/-- The LahMa exception classes that the embedded functions raise,
with their message string. -/
inductive LahMaError where
  | configError (msg : String) : LahMaError
  | environmentError (msg : String) : LahMaError
  | webFuzzerError (msg : String) : LahMaError
deriving DecidableEq, Repr

/-- Either a LahMa exception or an escaping built-in Python exception. -/
inductive LoadError where
  | lahma (e : LahMaError) : LoadError
  | py (e : PyError) : LoadError
deriving DecidableEq, Repr

/-! ## `find_config_file` (`src/core/config.py`, lines 18–45)

File existence is an effect; it is passed in as a predicate
`fsExists : String → Bool`. -/

/-- `DEFAULT_CONFIG_PATH = os.path.join("config", "config.yaml")`. -/
def DEFAULT_CONFIG_PATH : String := "config/config.yaml"

/-- `example_path = os.path.join(CONFIG_DIR, "config.example.yaml")`. -/
def EXAMPLE_CONFIG_PATH : String := "config/config.example.yaml"

/-- `find_config_file(config_path_arg)`: explicit argument first (Python
truthiness: `None` and `""` count as no argument), then the default
path, then the example path, else `None`. -/
def find_config_file (fsExists : String → Bool) (config_path_arg : Option String) :
    Except LahMaError (Option String) :=
  match truthyStr config_path_arg with
  | some p =>
      if fsExists p then .ok (some p)
      else .error (.configError ("Config file specified via --config does not exist: " ++ p))
  | none =>
      if fsExists DEFAULT_CONFIG_PATH then .ok (some DEFAULT_CONFIG_PATH)
      else if fsExists EXAMPLE_CONFIG_PATH then .ok (some EXAMPLE_CONFIG_PATH)
      else .ok none

/-! ## `load_config` (`src/core/config.py`, lines 48–122)

Reading and parsing the resolved file is an effect: the outcome of
`yaml.safe_load` on the resolved file is passed in as a `ParseOutcome`.
The two environment variables are passed as `Option String`s. -/

/-- Outcome of opening and `yaml.safe_load`-ing the resolved file. -/
inductive ParseOutcome where
  /-- `yaml.YAMLError` raised by the parser. -/
  | parseError : ParseOutcome
  /-- `IOError` while reading the file. -/
  | ioError : ParseOutcome
  /-- A successfully parsed document. -/
  | value (y : Yaml) : ParseOutcome

/-- `os.environ.get('LAHMA_OPENAI_API_KEY') or os.environ.get('OPENAI_API_KEY')`,
followed by the `if openai_api_key_env:` truthiness test (line 90):
the first truthy (non-empty) variable, if any. -/
def envApiKey (lahmaVar openaiVar : Option String) : Option String :=
  match truthyStr lahmaVar with
  | some s => some s
  | none => truthyStr openaiVar

/-- `config.setdefault(sec, {})` followed by mutating
`config[sec].setdefault ...` via `f`: fails with `AttributeError` when
the present value of `sec` is not a dict. -/
def modifySection (m : AL) (sec : String) (f : AL → Except PyError AL) :
    Except PyError AL :=
  let m' := alSetdefault m sec (.map [])
  match alGet m' sec with
  | some (.map sub) =>
      match f sub with
      | .ok sub' => .ok (alSet m' sec (.map sub'))
      | .error e => .error e
  | some _ => .error .attrError
  | none => .error .attrError

/-- Lines 84–85: the `logging` section defaults. -/
def loggingFill (sub : AL) : AL :=
  alSetdefault (alSetdefault sub "level" (.str "INFO")) "file" (.str "lahma.log")

/-- Lines 89–98 applied to the `openai` sub-dict: the environment
override `config['openai']['api_key'] = ...`, then the `model` and
`request_timeout` defaults. -/
def openaiFill (envL envO : Option String) (sub : AL) : AL :=
  let sub := match envApiKey envL envO with
    | some v => alSet sub "api_key" (.str v)
    | none => sub
  alSetdefault (alSetdefault sub "model" (.str "gpt-3.5-turbo")) "request_timeout" (.int 60)

/-- Lines 87–98: `config.setdefault('openai', {})` followed by the
environment override and the `openai` defaults (item assignment on a
non-dict is a `TypeError`; the `elif` branch's `config['openai'].get`
on a non-dict is an `AttributeError`). -/
def openaiSection (envL envO : Option String) (m : AL) : Except PyError AL :=
  let m' := alSetdefault m "openai" (.map [])
  match alGet m' "openai" with
  | some (.map sub) => .ok (alSet m' "openai" (.map (openaiFill envL envO sub)))
  | some _ =>
      .error (if (envApiKey envL envO).isSome then .typeError else .attrError)
  | none => .error .attrError

/-- Lines 102–103: the `esxi_tester` section defaults. -/
def esxiFill (sub : AL) : AL :=
  alSetdefault (alSetdefault sub "targets" (.list [])) "check_timeout" (.int 10)

/-- Lines 109–111: the `web_fuzzer.nuclei` sub-section defaults. -/
def nucleiFill (nsub : AL) : AL :=
  alSetdefault (alSetdefault (alSetdefault nsub
    "templates_path" .null) "extra_flags" (.str "-silent")) "process_timeout" (.int 600)

/-- Lines 107–111 applied to the `web_fuzzer` sub-dict: the `target_url`
default, then `setdefault('nuclei', {})` and the nested `nuclei`
defaults (an `AttributeError` when `nuclei` is bound to a non-dict). -/
def webFuzzerFill (sub : AL) : Except PyError AL :=
  modifySection (alSetdefault sub "target_url" .null) "nuclei" (fun nsub => .ok (nucleiFill nsub))

/-- Lines 115–117: the `tor` section defaults. -/
def torFill (sub : AL) : AL :=
  alSetdefault (alSetdefault (alSetdefault sub
    "enabled" (.bool false)) "control_port" (.int 9051)) "control_password" .null

/-- Lines 79–117: the default-filling and environment-override block of
`load_config`, applied to the base mapping. -/
def applyDefaults (envL envO : Option String) (m : AL) : Except PyError AL := do
  let m ← modifySection m "logging" (fun sub => .ok (loggingFill sub))
  let m ← openaiSection envL envO m
  let m ← modifySection m "esxi_tester" (fun sub => .ok (esxiFill sub))
  let m ← modifySection m "web_fuzzer" webFuzzerFill
  let m ← modifySection m "tor" (fun sub => .ok (torFill sub))
  return m

/-- `load_config(config_path_arg)`: resolve the file, parse it (a parse
error becomes a `ConfigError`, a non-mapping document resets the base to
`{}`), then fill defaults and apply the environment override. -/
def load_config (fsExists : String → Bool) (parse : String → ParseOutcome)
    (envL envO : Option String) (config_path_arg : Option String) :
    Except LoadError AL :=
  match find_config_file fsExists config_path_arg with
  | .error e => .error (.lahma e)
  | .ok found =>
    let base : Except LoadError AL :=
      match found with
      | none => .ok []
      | some path =>
        match parse path with
        | .parseError => .error (.lahma (.configError ("Invalid YAML syntax in " ++ path)))
        | .ioError => .error (.lahma (.configError ("Cannot read config file " ++ path)))
        | .value (.map m) => .ok m
        | .value _ => .ok []
    match base with
    | .error e => .error e
    | .ok m =>
      match applyDefaults envL envO m with
      | .ok r => .ok r
      | .error e => .error (.py e)

/-! ## Derived notions used to state the configuration claims -/

/-- Whether a YAML value is a mapping. -/
def Yaml.isMap : Yaml → Bool
  | .map _ => true
  | _ => false

/-- The sub-dict bound to `k` in `m` (`[]` when absent or not a dict). -/
def subOf (m : AL) (k : String) : AL :=
  match alGet m k with
  | some (.map s) => s
  | _ => []

/-- Key `k` of `m`, when present, is bound to a mapping (so the loader's
`config[k].setdefault`/`config[k][...]` calls do not raise). -/
def sectionOk (m : AL) (k : String) : Bool :=
  match alGet m k with
  | some y => y.isMap
  | none => true

/-- All five recognized top-level sections, and the nested
`web_fuzzer.nuclei` sub-section, are mappings when present. -/
def sectionsWF (m : AL) : Bool :=
  sectionOk m "logging" && sectionOk m "openai" && sectionOk m "esxi_tester" &&
    sectionOk m "web_fuzzer" && sectionOk m "tor" &&
    sectionOk (subOf m "web_fuzzer") "nuclei"

/-- Two-level lookup `m[s][k]` (`none` when `s` is absent or not a dict). -/
def alGet2 (m : AL) (s k : String) : Option Yaml :=
  alGet (subOf m s) k

/-- Three-level lookup `m[s][k][j]`. -/
def alGet3 (m : AL) (s k j : String) : Option Yaml :=
  alGet (subOf (subOf m s) k) j

/-- The all-default configuration: what `load_config` produces from an
empty base mapping (§4.1 defaults, with `openai.api_key` present only
when an environment variable supplies it). -/
def defaultConfig (envL envO : Option String) : AL :=
  [("logging", .map [("level", .str "INFO"), ("file", .str "lahma.log")]),
   ("openai", .map
     ((match envApiKey envL envO with
       | some v => [("api_key", .str v)]
       | none => []) ++
      [("model", .str "gpt-3.5-turbo"), ("request_timeout", .int 60)])),
   ("esxi_tester", .map [("targets", .list []), ("check_timeout", .int 10)]),
   ("web_fuzzer", .map [("target_url", .null),
     ("nuclei", .map [("templates_path", .null), ("extra_flags", .str "-silent"),
                      ("process_timeout", .int 600)])]),
   ("tor", .map [("enabled", .bool false), ("control_port", .int 9051),
                 ("control_password", .null)])]

/-- A small concrete configuration mapping (a `logging` section with a
non-default level, a `tor` section with a truthy flag) used to
instantiate the universally quantified loader theorems. -/
def sampleConfig : AL :=
  [("logging", .map [("level", .str "DEBUG")]),
   ("tor", .map [("enabled", .bool true)])]

/-! ## CLI dispatcher: log-file resolution (`src/lahma.py`, lines 99–107)

```
final_log_file = None if log_file == "NONE" else log_file
final_log_file = final_log_file or cfg.get("logging", {}).get("file")
...
setup_logging(final_log_level, final_log_file if final_log_file else None)
```

The configured `logging.file` value is a YAML value; the CLI override is
an optional string.  The result is the file argument actually passed to
`setup_logging` (`none` = console only, no file sink). -/

/-- The value bound to `final_log_file` after line 100 (the `"NONE"`
comparison is case-sensitive string equality), as a YAML value
(`None` ↦ `.null`). -/
def logFileAfterNoneCheck (log_file : Option String) : Yaml :=
  match log_file with
  | some s => if s = "NONE" then .null else .str s
  | none => .null

/-- The file argument passed to `setup_logging` on line 107: line 101's
Python `or` (falls back to the configured value when the override is
falsy) followed by line 107's `... if final_log_file else None`. -/
def setupLoggingFileArg (log_file : Option String) (cfgLoggingFile : Yaml) : Option Yaml :=
  let v1 := logFileAfterNoneCheck log_file
  let v2 := if yamlTruthy v1 then v1 else cfgLoggingFile
  if yamlTruthy v2 then some v2 else none

/-! ## ESXi tester module (`src/modules/esxi_tester/__init__.py`)

`check_esxi_target` performs one network interaction whose outcome is
passed in as a `ConnectOutcome`; the process-wide default socket timeout
(`socket.getdefaulttimeout()` / `socket.setdefaulttimeout(...)`, `None`
meaning no timeout) is threaded as explicit state. -/

/-- The `about` descriptor of a connected service instance. -/
structure AboutInfo where
  version : String
  fullName : String
  apiVersion : String

/-- Outcome of the `connect.SmartConnect` attempt and the subsequent
`about`-info read, one constructor per handled path of
`check_esxi_target`. -/
inductive ConnectOutcome where
  /-- `SmartConnect` returned a service instance and `about` was read. -/
  | connected (about : AboutInfo) : ConnectOutcome
  /-- `SmartConnect` returned a falsy value (defensive branch, line 94). -/
  | noInstance : ConnectOutcome
  /-- `vmodl.MethodFault` with message `msg`. -/
  | methodFault (msg : String) : ConnectOutcome
  /-- `socket.timeout` / `TimeoutError`. -/
  | timedOut : ConnectOutcome
  /-- `socket.gaierror` / `socket.herror` with message `msg`. -/
  | dnsError (msg : String) : ConnectOutcome
  /-- `ConnectionRefusedError` / `OSError` with message `msg`. -/
  | connError (msg : String) : ConnectOutcome
  /-- Any other exception with message `msg` (catch-all, line 118). -/
  | unexpected (msg : String) : ConnectOutcome

/-- The process-wide default socket timeout (`None` or a number of
seconds). -/
abbrev SockTimeout := Option Int

/-- `check_esxi_target(host, port, timeout)`: raises an environment
error when pyVmomi is unavailable (before touching the socket timeout);
otherwise saves the default socket timeout, sets it to `timeout`,
classifies the connection outcome into a `(success, message)` pair, and
in the `finally` block restores the saved timeout.  Returns the result
together with the default socket timeout left in place after the call. -/
def check_esxi_target (pyvmomiAvailable : Bool) (host : String) (port : Int)
    (timeout : Int) (outcome : ConnectOutcome) (st : SockTimeout) :
    Except LahMaError (Bool × String) × SockTimeout :=
  if !pyvmomiAvailable then
    (.error (.environmentError
      "pyVmomi library is required for the ESXi module but is not installed."), st)
  else
    let original_timeout := st
    let st := some timeout
    let result : Bool × String :=
      match outcome with
      | .connected about =>
          (true, "Successfully connected. Product: " ++ about.fullName ++
            ", Version: " ++ about.version ++ ", API Version: " ++ about.apiVersion)
      | .noInstance => (false, "Connection attempt returned no service instance.")
      | .methodFault msg => (false, "VMware API error: " ++ msg)
      | .timedOut => (false, "Connection timed out after " ++ toString timeout ++ " seconds.")
      | .dnsError msg => (false, "DNS resolution error: " ++ msg)
      | .connError msg => (false, "Connection error: " ++ msg)
      | .unexpected msg => (false, "An unexpected error occurred during connection: " ++ msg)
    let st := original_timeout
    (.ok result, st)

/-- Python `str.split(sep, 1)` specialised to `':'`: the part before the
first colon and the part after it, or `none` when the string has no
colon (the `if ':' in host` test). -/
def splitFirstColon (s : String) : Option (String × String) :=
  match s.data.findIdx? (· = ':') with
  | none => none
  | some i => some (⟨s.data.take i⟩, ⟨s.data.drop (i + 1)⟩)

/-- Python `int(s)` on a string: strips surrounding whitespace, accepts
an optional sign followed by at least one digit, rejects everything
else (`ValueError` ↦ `none`). -/
def pyInt (s : String) : Option Int :=
  let chars := (s.data.dropWhile Char.isWhitespace).reverse.dropWhile Char.isWhitespace |>.reverse
  let (neg, digits) :=
    match chars with
    | '-' :: rest => (true, rest)
    | '+' :: rest => (false, rest)
    | rest => (false, rest)
  if digits ≠ [] ∧ digits.all Char.isDigit then
    let n : Nat := digits.foldl (fun acc c => 10 * acc + (c.toNat - '0'.toNat)) 0
    some (if neg then -(n : Int) else (n : Int))
  else none

/-- Lines 157–169 of the ESXi `run` loop, for one target entry: parse
`host[:port]` (default port 443); a port segment that `int` rejects is
a `ValueError`. -/
def parseTarget (t : String) : Except Unit (String × Int) :=
  match splitFirstColon t with
  | none => .ok (t, 443)
  | some (h, portStr) =>
      match pyInt portStr with
      | some p => .ok (h, p)
      | none => .error ()

/-- Lines 171–177: the per-target body of the `run` loop.  The network
check is passed in as a function `check`; a malformed target is recorded
as a failed result with the "Invalid format" message from line 168. -/
def processTarget (check : String → Int → Bool × String) (t : String) : Bool × String :=
  match parseTarget t with
  | .ok (h, p) => check h p
  | .error _ => (false, "Invalid format (expected 'host' or 'host:port').")

/-- The result tuple recorded for target `t`, as a YAML value (a Python
`(bool, str)` pair). -/
def resultEntry (check : String → Int → Bool × String) (t : String) : Yaml :=
  .list [.bool (processTarget check t).1, .str (processTarget check t).2]

/-- The `results` dictionary built by the `run` loop (lines 156–177):
keyed by the original target string, in insertion order, duplicates
overwriting (`results[target_entry] = ...`). -/
def runEsxiResults (check : String → Int → Bool × String) (targets : List String) : AL :=
  targets.foldl (fun acc t => alSet acc t (resultEntry check t)) []

/-! ## Web fuzzer module (`src/modules/web_fuzzer/__init__.py`)

`run_nuclei` spawns the external process; the outcome of
`subprocess.run` is passed in as a `ProcOutcome`. -/

/-- Outcome of the `subprocess.run` call in `run_nuclei`. -/
inductive ProcOutcome where
  /-- The child ran to completion with `returncode`, `stdout`, `stderr`. -/
  | completed (returncode : Int) (stdout stderr : String) : ProcOutcome
  /-- `subprocess.TimeoutExpired`. -/
  | timedOut : ProcOutcome
  /-- `FileNotFoundError` at execution time. -/
  | fileNotFound : ProcOutcome
  /-- Any other exception with message `msg` (catch-all, line 143). -/
  | otherError (msg : String) : ProcOutcome

/-- Lines 99–148 of `run_nuclei`: classify the process outcome.  Exit
code 0 returns `true`; a non-zero exit code raises `WebFuzzerError`
carrying the code; a timeout raises `WebFuzzerError` carrying the
timeout; a missing executable raises `EnvironmentError`; any other
failure raises `WebFuzzerError`. -/
def run_nuclei (process_timeout : Int) (outcome : ProcOutcome) :
    Except LahMaError Bool :=
  match outcome with
  | .completed returncode _ _ =>
      if returncode ≠ 0 then
        .error (.webFuzzerError
          ("Nuclei process failed with exit code " ++ toString returncode ++ "."))
      else .ok true
  | .timedOut =>
      .error (.webFuzzerError
        ("Nuclei scan process timed out (" ++ toString process_timeout ++ "s)."))
  | .fileNotFound =>
      .error (.environmentError
        ("Nuclei executable not found during execution. " ++
         "Please ensure it is installed and in the system PATH."))
  | .otherError msg =>
      .error (.webFuzzerError ("Nuclei execution failed unexpectedly: " ++ msg))

/-! ## Honeypot module (`src/modules/honeypot/__init__.py`) -/

/-- `generate_bait_rules(target_tech, api_key, model)`: when a truthy
`api_key` is supplied (Python truthiness: `None` and `""` are falsy)
and the OpenAI library is unavailable, raises an environment error
(line 80); on every other path returns the single hardcoded placeholder
rule (lines 121–130). -/
def generate_bait_rules (openaiAvailable : Bool) (target_tech : String)
    (api_key : Option String) (model : String) :
    Except LahMaError (List (List (String × String))) :=
  if (truthyStr api_key).isSome ∧ !openaiAvailable then
    .error (.environmentError
      ("OpenAI library is required for dynamic bait generation " ++
       "(API key provided) but not installed."))
  else
    .ok [[("rule_id", "placeholder_001"),
          ("target_tech", target_tech),
          ("type", "banner_grab"),
          ("decoy_content", "Placeholder " ++ target_tech ++ " Banner - Welcome!"),
          ("action", "log_connection")]]

/-! ## Lemmas about the dict operations -/

theorem alGet_alSet_self (m : AL) (k : String) (v : Yaml) :
    alGet (alSet m k v) k = some v := by
  induction m with
  | nil => simp [alSet, alGet]
  | cons p rest ih =>
      obtain ⟨k', v'⟩ := p
      by_cases h : k' = k
      · simp [alSet, alGet, h]
      · simp [alSet, alGet, h, ih]

theorem alGet_alSet_ne (m : AL) (k k' : String) (v : Yaml) (h : k' ≠ k) :
    alGet (alSet m k v) k' = alGet m k' := by
  induction m with
  | nil =>
      simp only [alSet, alGet]
      rw [if_neg (Ne.symm h)]
  | cons p rest ih =>
      obtain ⟨k₀, v₀⟩ := p
      by_cases h₀ : k₀ = k
      · subst h₀
        simp only [alSet, if_pos rfl, alGet]
        rw [if_neg (Ne.symm h), if_neg (Ne.symm h)]
      · simp only [alSet, if_neg h₀, alGet]
        by_cases h₁ : k₀ = k'
        · rw [if_pos h₁, if_pos h₁]
        · rw [if_neg h₁, if_neg h₁, ih]

theorem alGet_append_single_self (m : AL) (k : String) (v : Yaml)
    (h : alGet m k = none) : alGet (m ++ [(k, v)]) k = some v := by
  induction m with
  | nil => simp [alGet]
  | cons p rest ih =>
      obtain ⟨k₀, v₀⟩ := p
      by_cases h₀ : k₀ = k
      · simp [alGet, h₀] at h
      · simp only [alGet, h₀, if_false, List.cons_append] at h ⊢
        simpa [alGet, h₀] using ih h

theorem alGet_append_single_ne (m : AL) (k k' : String) (v : Yaml) (h : k' ≠ k) :
    alGet (m ++ [(k, v)]) k' = alGet m k' := by
  induction m with
  | nil =>
      simp only [List.nil_append, alGet]
      rw [if_neg (Ne.symm h)]
  | cons p rest ih =>
      obtain ⟨k₀, v₀⟩ := p
      by_cases h₀ : k₀ = k'
      · simp [alGet, h₀]
      · simp [alGet, h₀, ih]

theorem alGet_alSetdefault_self (m : AL) (k : String) (v : Yaml) :
    alGet (alSetdefault m k v) k = some ((alGet m k).getD v) := by
  unfold alSetdefault
  cases h : alGet m k with
  | none => simp [alGet_append_single_self m k v h]
  | some w => simp [h]

theorem alGet_alSetdefault_ne (m : AL) (k k' : String) (v : Yaml) (h : k' ≠ k) :
    alGet (alSetdefault m k v) k' = alGet m k' := by
  unfold alSetdefault
  cases hg : alGet m k with
  | none => simp [alGet_append_single_ne m k k' v h]
  | some w => rfl

theorem subOf_congr (a b : AL) (k : String) (h : alGet a k = alGet b k) :
    subOf a k = subOf b k := by
  unfold subOf
  rw [h]

theorem sectionOk_of_get (m : AL) (k : String) (h : sectionOk m k = true)
    (y : Yaml) (hy : alGet m k = some y) : ∃ s, y = .map s := by
  unfold sectionOk at h
  rw [hy] at h
  cases y <;> simp [Yaml.isMap] at h ⊢

theorem sectionOk_congr (a b : AL) (k : String) (h : alGet a k = alGet b k) :
    sectionOk a k = sectionOk b k := by
  unfold sectionOk
  rw [h]

/-- `modifySection` under a well-formed section: succeeds, writes the
filled sub-dict, leaves every other key's binding unchanged. -/
theorem modifySection_spec (m : AL) (k : String) (f : AL → Except PyError AL)
    (s' : AL) (hok : sectionOk m k = true) (hf : f (subOf m k) = .ok s') :
    ∃ r, modifySection m k f = .ok r ∧ alGet r k = some (.map s') ∧
      ∀ k', k' ≠ k → alGet r k' = alGet m k' := by
  cases hg : alGet m k with
  | some y =>
      obtain ⟨s, rfl⟩ := sectionOk_of_get m k hok y hg
      have hsub : subOf m k = s := by unfold subOf; rw [hg]
      have hsd : alSetdefault m k (.map []) = m := by unfold alSetdefault; rw [hg]
      rw [hsub] at hf
      refine ⟨alSet m k (.map s'), ?_, alGet_alSet_self m k (.map s'),
        fun k' hk' => alGet_alSet_ne m k k' (.map s') hk'⟩
      unfold modifySection
      simp only [hsd, hg, hf]
  | none =>
      have hsub : subOf m k = [] := by unfold subOf; rw [hg]
      have hsd : alSetdefault m k (.map []) = m ++ [(k, .map [])] := by
        unfold alSetdefault; rw [hg]
      have hget : alGet (m ++ [(k, Yaml.map [])]) k = some (.map []) :=
        alGet_append_single_self m k (.map []) hg
      rw [hsub] at hf
      refine ⟨alSet (m ++ [(k, .map [])]) k (.map s'), ?_,
        alGet_alSet_self _ k (.map s'), fun k' hk' => ?_⟩
      · unfold modifySection
        simp only [hsd, hget, hf]
      · rw [alGet_alSet_ne _ k k' (.map s') hk',
          alGet_append_single_ne m k k' (.map []) hk']

/-- `openaiSection` under a well-formed section: succeeds, writes
`openaiFill` of the sub-dict, leaves every other key unchanged. -/
theorem openaiSection_spec (envL envO : Option String) (m : AL)
    (hok : sectionOk m "openai" = true) :
    ∃ r, openaiSection envL envO m = .ok r ∧
      alGet r "openai" = some (.map (openaiFill envL envO (subOf m "openai"))) ∧
      ∀ k', k' ≠ "openai" → alGet r k' = alGet m k' := by
  cases hg : alGet m "openai" with
  | some y =>
      obtain ⟨s, rfl⟩ := sectionOk_of_get m "openai" hok y hg
      have hsub : subOf m "openai" = s := by unfold subOf; rw [hg]
      have hsd : alSetdefault m "openai" (.map []) = m := by unfold alSetdefault; rw [hg]
      rw [hsub]
      refine ⟨alSet m "openai" (.map (openaiFill envL envO s)), ?_,
        alGet_alSet_self m "openai" _,
        fun k' hk' => alGet_alSet_ne m "openai" k' _ hk'⟩
      unfold openaiSection
      simp only [hsd, hg]
  | none =>
      have hsub : subOf m "openai" = [] := by unfold subOf; rw [hg]
      have hsd : alSetdefault m "openai" (.map []) = m ++ [("openai", .map [])] := by
        unfold alSetdefault; rw [hg]
      have hget : alGet (m ++ [("openai", Yaml.map [])]) "openai" = some (.map []) :=
        alGet_append_single_self m "openai" (.map []) hg
      rw [hsub]
      refine ⟨alSet (m ++ [("openai", .map [])]) "openai" (.map (openaiFill envL envO [])),
        ?_, alGet_alSet_self _ "openai" _, fun k' hk' => ?_⟩
      · unfold openaiSection
        simp only [hsd, hget]
      · rw [alGet_alSet_ne _ "openai" k' _ hk',
          alGet_append_single_ne m "openai" k' (.map []) hk']

/-- `subOf` reads off a known section binding. -/
theorem subOf_of_get (m : AL) (k : String) (s : AL)
    (h : alGet m k = some (.map s)) : subOf m k = s := by
  unfold subOf
  rw [h]

/-- `webFuzzerFill` under a well-formed `nuclei` sub-section. -/
theorem webFuzzerFill_spec (sub : AL) (h : sectionOk sub "nuclei" = true) :
    ∃ w, webFuzzerFill sub = .ok w ∧
      alGet w "target_url" = some ((alGet sub "target_url").getD .null) ∧
      alGet w "nuclei" = some (.map (nucleiFill (subOf sub "nuclei"))) := by
  have hpres : alGet (alSetdefault sub "target_url" .null) "nuclei" = alGet sub "nuclei" :=
    alGet_alSetdefault_ne sub "target_url" "nuclei" .null (by decide)
  have hok1 : sectionOk (alSetdefault sub "target_url" .null) "nuclei" = true := by
    rw [sectionOk_congr _ sub "nuclei" hpres]; exact h
  have hsubeq : subOf (alSetdefault sub "target_url" .null) "nuclei" = subOf sub "nuclei" :=
    subOf_congr _ _ _ hpres
  obtain ⟨w, he, hg, hp⟩ := modifySection_spec (alSetdefault sub "target_url" .null)
    "nuclei" (fun nsub => .ok (nucleiFill nsub))
    (nucleiFill (subOf (alSetdefault sub "target_url" .null) "nuclei")) hok1 rfl
  refine ⟨w, ?_, ?_, ?_⟩
  · unfold webFuzzerFill
    exact he
  · rw [hp "target_url" (by decide)]
    exact alGet_alSetdefault_self sub "target_url" .null
  · rw [hg, hsubeq]

/-- The whole default-filling block under well-formed sections: it
succeeds and each section ends up as its filled sub-dict. -/
theorem applyDefaults_spec (envL envO : Option String) (m : AL)
    (h : sectionsWF m = true) :
    ∃ r, applyDefaults envL envO m = .ok r ∧
      alGet r "logging" = some (.map (loggingFill (subOf m "logging"))) ∧
      alGet r "openai" = some (.map (openaiFill envL envO (subOf m "openai"))) ∧
      alGet r "esxi_tester" = some (.map (esxiFill (subOf m "esxi_tester"))) ∧
      (∃ w, alGet r "web_fuzzer" = some (.map w) ∧
        alGet w "target_url" = some ((alGet (subOf m "web_fuzzer") "target_url").getD .null) ∧
        alGet w "nuclei" = some (.map (nucleiFill (subOf (subOf m "web_fuzzer") "nuclei")))) ∧
      alGet r "tor" = some (.map (torFill (subOf m "tor"))) := by
  simp only [sectionsWF, Bool.and_eq_true] at h
  obtain ⟨⟨⟨⟨⟨h1, h2⟩, h3⟩, h4⟩, h5⟩, h6⟩ := h
  -- step 1: logging
  obtain ⟨r1, e1, g1, p1⟩ := modifySection_spec m "logging"
    (fun sub => .ok (loggingFill sub)) (loggingFill (subOf m "logging")) h1 rfl
  -- step 2: openai
  have h2' : sectionOk r1 "openai" = true := by
    rw [sectionOk_congr r1 m "openai" (p1 "openai" (by decide))]; exact h2
  obtain ⟨r2, e2, g2, p2⟩ := openaiSection_spec envL envO r1 h2'
  rw [subOf_congr r1 m "openai" (p1 "openai" (by decide))] at g2
  -- step 3: esxi_tester
  have h3' : sectionOk r2 "esxi_tester" = true := by
    rw [sectionOk_congr r2 r1 "esxi_tester" (p2 "esxi_tester" (by decide)),
      sectionOk_congr r1 m "esxi_tester" (p1 "esxi_tester" (by decide))]
    exact h3
  obtain ⟨r3, e3, g3, p3⟩ := modifySection_spec r2 "esxi_tester"
    (fun sub => .ok (esxiFill sub)) (esxiFill (subOf r2 "esxi_tester")) h3' rfl
  rw [subOf_congr r2 r1 "esxi_tester" (p2 "esxi_tester" (by decide)),
    subOf_congr r1 m "esxi_tester" (p1 "esxi_tester" (by decide))] at g3
  -- step 4: web_fuzzer
  have hwm : alGet r3 "web_fuzzer" = alGet m "web_fuzzer" := by
    rw [p3 "web_fuzzer" (by decide), p2 "web_fuzzer" (by decide),
      p1 "web_fuzzer" (by decide)]
  have h4' : sectionOk r3 "web_fuzzer" = true := by
    rw [sectionOk_congr r3 m "web_fuzzer" hwm]; exact h4
  have hws : subOf r3 "web_fuzzer" = subOf m "web_fuzzer" := subOf_congr _ _ _ hwm
  obtain ⟨w, hwe, hwt, hwn⟩ := webFuzzerFill_spec (subOf m "web_fuzzer") h6
  obtain ⟨r4, e4, g4, p4⟩ := modifySection_spec r3 "web_fuzzer" webFuzzerFill w h4'
    (by rw [hws]; exact hwe)
  -- step 5: tor
  have htm : alGet r4 "tor" = alGet m "tor" := by
    rw [p4 "tor" (by decide), p3 "tor" (by decide), p2 "tor" (by decide),
      p1 "tor" (by decide)]
  have h5' : sectionOk r4 "tor" = true := by
    rw [sectionOk_congr r4 m "tor" htm]; exact h5
  obtain ⟨r5, e5, g5, p5⟩ := modifySection_spec r4 "tor"
    (fun sub => .ok (torFill sub)) (torFill (subOf r4 "tor")) h5' rfl
  rw [subOf_congr r4 m "tor" htm] at g5
  -- assemble
  refine ⟨r5, ?_, ?_, ?_, ?_, ⟨w, ?_, hwt, hwn⟩, g5⟩
  · have hb : ∀ {α β : Type} (x : α) (f : α → Except PyError β),
        (Except.ok x >>= f : Except PyError β) = f x := fun _ _ => rfl
    unfold applyDefaults
    rw [e1, hb, e2, hb, e3, hb, e4, hb, e5, hb]
    rfl
  · rw [p5 "logging" (by decide), p4 "logging" (by decide),
      p3 "logging" (by decide), p2 "logging" (by decide)]
    exact g1
  · rw [p5 "openai" (by decide), p4 "openai" (by decide), p3 "openai" (by decide)]
    exact g2
  · rw [p5 "esxi_tester" (by decide), p4 "esxi_tester" (by decide)]
    exact g3
  · rw [p5 "web_fuzzer" (by decide)]
    exact g4

/-! ### Lookups into the filled sections -/

theorem loggingFill_level (sub : AL) :
    alGet (loggingFill sub) "level" = some ((alGet sub "level").getD (.str "INFO")) := by
  unfold loggingFill
  rw [alGet_alSetdefault_ne _ "file" "level" _ (by decide), alGet_alSetdefault_self]

theorem loggingFill_file (sub : AL) :
    alGet (loggingFill sub) "file" = some ((alGet sub "file").getD (.str "lahma.log")) := by
  unfold loggingFill
  rw [alGet_alSetdefault_self, alGet_alSetdefault_ne sub "level" "file" _ (by decide)]

theorem openaiFill_api_key (envL envO : Option String) (sub : AL) :
    alGet (openaiFill envL envO sub) "api_key" =
      (match envApiKey envL envO with
       | some v => some (.str v)
       | none => alGet sub "api_key") := by
  unfold openaiFill
  rw [alGet_alSetdefault_ne _ "request_timeout" "api_key" _ (by decide),
    alGet_alSetdefault_ne _ "model" "api_key" _ (by decide)]
  cases envApiKey envL envO with
  | some v => exact alGet_alSet_self sub "api_key" (.str v)
  | none => rfl

theorem openaiFill_model (envL envO : Option String) (sub : AL) :
    alGet (openaiFill envL envO sub) "model" =
      some ((alGet sub "model").getD (.str "gpt-3.5-turbo")) := by
  unfold openaiFill
  rw [alGet_alSetdefault_ne _ "request_timeout" "model" _ (by decide),
    alGet_alSetdefault_self]
  cases envApiKey envL envO with
  | some v => rw [alGet_alSet_ne sub "api_key" "model" (.str v) (by decide)]
  | none => rfl

theorem openaiFill_request_timeout (envL envO : Option String) (sub : AL) :
    alGet (openaiFill envL envO sub) "request_timeout" =
      some ((alGet sub "request_timeout").getD (.int 60)) := by
  unfold openaiFill
  rw [alGet_alSetdefault_self, alGet_alSetdefault_ne _ "model" "request_timeout" _ (by decide)]
  cases envApiKey envL envO with
  | some v => rw [alGet_alSet_ne sub "api_key" "request_timeout" (.str v) (by decide)]
  | none => rfl

theorem esxiFill_targets (sub : AL) :
    alGet (esxiFill sub) "targets" = some ((alGet sub "targets").getD (.list [])) := by
  unfold esxiFill
  rw [alGet_alSetdefault_ne _ "check_timeout" "targets" _ (by decide), alGet_alSetdefault_self]

theorem esxiFill_check_timeout (sub : AL) :
    alGet (esxiFill sub) "check_timeout" =
      some ((alGet sub "check_timeout").getD (.int 10)) := by
  unfold esxiFill
  rw [alGet_alSetdefault_self, alGet_alSetdefault_ne sub "targets" "check_timeout" _ (by decide)]

theorem nucleiFill_templates_path (nsub : AL) :
    alGet (nucleiFill nsub) "templates_path" =
      some ((alGet nsub "templates_path").getD .null) := by
  unfold nucleiFill
  rw [alGet_alSetdefault_ne _ "process_timeout" "templates_path" _ (by decide),
    alGet_alSetdefault_ne _ "extra_flags" "templates_path" _ (by decide),
    alGet_alSetdefault_self]

theorem nucleiFill_extra_flags (nsub : AL) :
    alGet (nucleiFill nsub) "extra_flags" =
      some ((alGet nsub "extra_flags").getD (.str "-silent")) := by
  unfold nucleiFill
  rw [alGet_alSetdefault_ne _ "process_timeout" "extra_flags" _ (by decide),
    alGet_alSetdefault_self,
    alGet_alSetdefault_ne nsub "templates_path" "extra_flags" _ (by decide)]

theorem nucleiFill_process_timeout (nsub : AL) :
    alGet (nucleiFill nsub) "process_timeout" =
      some ((alGet nsub "process_timeout").getD (.int 600)) := by
  unfold nucleiFill
  rw [alGet_alSetdefault_self,
    alGet_alSetdefault_ne _ "extra_flags" "process_timeout" _ (by decide),
    alGet_alSetdefault_ne nsub "templates_path" "process_timeout" _ (by decide)]

theorem torFill_enabled (sub : AL) :
    alGet (torFill sub) "enabled" = some ((alGet sub "enabled").getD (.bool false)) := by
  unfold torFill
  rw [alGet_alSetdefault_ne _ "control_password" "enabled" _ (by decide),
    alGet_alSetdefault_ne _ "control_port" "enabled" _ (by decide),
    alGet_alSetdefault_self]

theorem torFill_control_port (sub : AL) :
    alGet (torFill sub) "control_port" =
      some ((alGet sub "control_port").getD (.int 9051)) := by
  unfold torFill
  rw [alGet_alSetdefault_ne _ "control_password" "control_port" _ (by decide),
    alGet_alSetdefault_self,
    alGet_alSetdefault_ne sub "enabled" "control_port" _ (by decide)]

theorem torFill_control_password (sub : AL) :
    alGet (torFill sub) "control_password" =
      some ((alGet sub "control_password").getD .null) := by
  unfold torFill
  rw [alGet_alSetdefault_self,
    alGet_alSetdefault_ne _ "control_port" "control_password" _ (by decide),
    alGet_alSetdefault_ne sub "enabled" "control_password" _ (by decide)]

/-! ### The all-default configuration -/

theorem openaiFill_nil (envL envO : Option String) :
    openaiFill envL envO [] =
      (match envApiKey envL envO with
       | some v => [("api_key", .str v)]
       | none => []) ++
      [("model", .str "gpt-3.5-turbo"), ("request_timeout", .int 60)] := by
  unfold openaiFill
  cases envApiKey envL envO <;> rfl

theorem applyDefaults_nil (envL envO : Option String) :
    applyDefaults envL envO [] = .ok (defaultConfig envL envO) := by
  unfold defaultConfig
  rw [← openaiFill_nil envL envO]
  rfl

/-! ## Claim theorems -/

/-- **C2.** For every parsed top-level configuration mapping (whose
sections, when present, are mappings), `load_config` populates each
recognized key that is absent with exactly the §4.1 default
(`logging.level = "INFO"`, `logging.file = "lahma.log"`,
`openai.model = "gpt-3.5-turbo"`, `openai.request_timeout = 60`,
`esxi_tester.targets = []`, `esxi_tester.check_timeout = 10`,
`web_fuzzer.target_url = null`, `web_fuzzer.nuclei.templates_path = null`,
`web_fuzzer.nuclei.extra_flags = "-silent"`,
`web_fuzzer.nuclei.process_timeout = 600`, `tor.enabled = false`,
`tor.control_port = 9051`, `tor.control_password = null`), and never
overwrites a key already present — even one bound to a falsy value —
with the sole exception of the environment-variable override of
`openai.api_key`: each conjunct says the final value is the original
one when present and the default otherwise, and `api_key` is the
environment value exactly when the environment supplies one. -/
theorem load_config_fills_defaults (m : AL) (envL envO : Option String)
    (h : sectionsWF m = true) :
    ∃ r, load_config (fun _ => true) (fun _ => .value (.map m)) envL envO
        (some "config.yaml") = .ok r ∧
      alGet2 r "logging" "level" = some ((alGet2 m "logging" "level").getD (.str "INFO")) ∧
      alGet2 r "logging" "file" = some ((alGet2 m "logging" "file").getD (.str "lahma.log")) ∧
      alGet2 r "openai" "api_key" =
        (match envApiKey envL envO with
         | some v => some (.str v)
         | none => alGet2 m "openai" "api_key") ∧
      alGet2 r "openai" "model" =
        some ((alGet2 m "openai" "model").getD (.str "gpt-3.5-turbo")) ∧
      alGet2 r "openai" "request_timeout" =
        some ((alGet2 m "openai" "request_timeout").getD (.int 60)) ∧
      alGet2 r "esxi_tester" "targets" =
        some ((alGet2 m "esxi_tester" "targets").getD (.list [])) ∧
      alGet2 r "esxi_tester" "check_timeout" =
        some ((alGet2 m "esxi_tester" "check_timeout").getD (.int 10)) ∧
      alGet2 r "web_fuzzer" "target_url" =
        some ((alGet2 m "web_fuzzer" "target_url").getD .null) ∧
      alGet3 r "web_fuzzer" "nuclei" "templates_path" =
        some ((alGet3 m "web_fuzzer" "nuclei" "templates_path").getD .null) ∧
      alGet3 r "web_fuzzer" "nuclei" "extra_flags" =
        some ((alGet3 m "web_fuzzer" "nuclei" "extra_flags").getD (.str "-silent")) ∧
      alGet3 r "web_fuzzer" "nuclei" "process_timeout" =
        some ((alGet3 m "web_fuzzer" "nuclei" "process_timeout").getD (.int 600)) ∧
      alGet2 r "tor" "enabled" = some ((alGet2 m "tor" "enabled").getD (.bool false)) ∧
      alGet2 r "tor" "control_port" =
        some ((alGet2 m "tor" "control_port").getD (.int 9051)) ∧
      alGet2 r "tor" "control_password" =
        some ((alGet2 m "tor" "control_password").getD .null) := by
  obtain ⟨r, he, hl, ho, hesxi, ⟨w, hwg, hwt, hwn⟩, htor⟩ := applyDefaults_spec envL envO m h
  have h0 : load_config (fun _ => true) (fun _ => .value (.map m)) envL envO
      (some "config.yaml") =
      (match applyDefaults envL envO m with
       | .ok r => .ok r
       | .error e => .error (.py e)) := rfl
  have hsl := subOf_of_get r "logging" _ hl
  have hso := subOf_of_get r "openai" _ ho
  have hse := subOf_of_get r "esxi_tester" _ hesxi
  have hsw := subOf_of_get r "web_fuzzer" _ hwg
  have hst := subOf_of_get r "tor" _ htor
  have hsn := subOf_of_get w "nuclei" _ hwn
  refine ⟨r, by rw [h0, he], ?_, ?_, ?_, ?_, ?_, ?_, ?_, ?_, ?_, ?_, ?_, ?_, ?_, ?_⟩
  · unfold alGet2
    rw [hsl, loggingFill_level]
  · unfold alGet2
    rw [hsl, loggingFill_file]
  · unfold alGet2
    rw [hso, openaiFill_api_key]
  · unfold alGet2
    rw [hso, openaiFill_model]
  · unfold alGet2
    rw [hso, openaiFill_request_timeout]
  · unfold alGet2
    rw [hse, esxiFill_targets]
  · unfold alGet2
    rw [hse, esxiFill_check_timeout]
  · unfold alGet2
    rw [hsw, hwt]
  · unfold alGet3
    rw [hsw, hsn, nucleiFill_templates_path]
  · unfold alGet3
    rw [hsw, hsn, nucleiFill_extra_flags]
  · unfold alGet3
    rw [hsw, hsn, nucleiFill_process_timeout]
  · unfold alGet2
    rw [hst, torFill_enabled]
  · unfold alGet2
    rw [hst, torFill_control_port]
  · unfold alGet2
    rw [hst, torFill_control_password]

/-- Witness for C2: the theorem applied to `sampleConfig` with
`OPENAI_API_KEY = "sk-env"`. -/
theorem load_config_fills_defaults_witness :
    sectionsWF sampleConfig = true ∧
    ∃ r, load_config (fun _ => true) (fun _ => .value (.map sampleConfig)) none
        (some "sk-env") (some "config.yaml") = .ok r ∧
      alGet2 r "logging" "level" =
        some ((alGet2 sampleConfig "logging" "level").getD (.str "INFO")) ∧
      alGet2 r "logging" "file" =
        some ((alGet2 sampleConfig "logging" "file").getD (.str "lahma.log")) ∧
      alGet2 r "openai" "api_key" =
        (match envApiKey none (some "sk-env") with
         | some v => some (.str v)
         | none => alGet2 sampleConfig "openai" "api_key") ∧
      alGet2 r "openai" "model" =
        some ((alGet2 sampleConfig "openai" "model").getD (.str "gpt-3.5-turbo")) ∧
      alGet2 r "openai" "request_timeout" =
        some ((alGet2 sampleConfig "openai" "request_timeout").getD (.int 60)) ∧
      alGet2 r "esxi_tester" "targets" =
        some ((alGet2 sampleConfig "esxi_tester" "targets").getD (.list [])) ∧
      alGet2 r "esxi_tester" "check_timeout" =
        some ((alGet2 sampleConfig "esxi_tester" "check_timeout").getD (.int 10)) ∧
      alGet2 r "web_fuzzer" "target_url" =
        some ((alGet2 sampleConfig "web_fuzzer" "target_url").getD .null) ∧
      alGet3 r "web_fuzzer" "nuclei" "templates_path" =
        some ((alGet3 sampleConfig "web_fuzzer" "nuclei" "templates_path").getD .null) ∧
      alGet3 r "web_fuzzer" "nuclei" "extra_flags" =
        some ((alGet3 sampleConfig "web_fuzzer" "nuclei" "extra_flags").getD (.str "-silent")) ∧
      alGet3 r "web_fuzzer" "nuclei" "process_timeout" =
        some ((alGet3 sampleConfig "web_fuzzer" "nuclei" "process_timeout").getD (.int 600)) ∧
      alGet2 r "tor" "enabled" =
        some ((alGet2 sampleConfig "tor" "enabled").getD (.bool false)) ∧
      alGet2 r "tor" "control_port" =
        some ((alGet2 sampleConfig "tor" "control_port").getD (.int 9051)) ∧
      alGet2 r "tor" "control_password" =
        some ((alGet2 sampleConfig "tor" "control_password").getD .null) :=
  ⟨rfl, load_config_fills_defaults sampleConfig none (some "sk-env") rfl⟩

/-- **C3.** Whenever at least one of the two accepted environment
variables (`LAHMA_OPENAI_API_KEY`, then `OPENAI_API_KEY`) holds a
non-empty string, `load_config` sets `openai.api_key` to that value,
overwriting any value from the configuration file; when both are set the
first-named variable wins; an empty-string variable is treated as
unset. -/
theorem load_config_env_override_priority (m : AL) (envL envO : Option String)
    (h : sectionsWF m = true) :
    ∃ r, load_config (fun _ => true) (fun _ => .value (.map m)) envL envO
        (some "config.yaml") = .ok r ∧
      (∀ s, envL = some s → s ≠ "" → alGet2 r "openai" "api_key" = some (.str s)) ∧
      (∀ t, (envL = none ∨ envL = some "") → envO = some t → t ≠ "" →
        alGet2 r "openai" "api_key" = some (.str t)) ∧
      ((envL = none ∨ envL = some "") → (envO = none ∨ envO = some "") →
        alGet2 r "openai" "api_key" = alGet2 m "openai" "api_key") := by
  obtain ⟨r, he, hl, ho, hesxi, hw, htor⟩ := applyDefaults_spec envL envO m h
  have h0 : load_config (fun _ => true) (fun _ => .value (.map m)) envL envO
      (some "config.yaml") =
      (match applyDefaults envL envO m with
       | .ok r => .ok r
       | .error e => .error (.py e)) := rfl
  have hso := subOf_of_get r "openai" _ ho
  have hkey : alGet2 r "openai" "api_key" =
      (match envApiKey envL envO with
       | some v => some (.str v)
       | none => alGet2 m "openai" "api_key") := by
    unfold alGet2
    rw [hso, openaiFill_api_key]
  refine ⟨r, by rw [h0, he], ?_, ?_, ?_⟩
  · intro s hL hs
    have henv : envApiKey envL envO = some s := by
      unfold envApiKey truthyStr
      rw [hL]
      simp [hs]
    rw [hkey, henv]
  · intro t hL hO ht
    have hLnone : truthyStr envL = none := by
      rcases hL with h1 | h1 <;> simp [truthyStr, h1]
    have henv : envApiKey envL envO = some t := by
      unfold envApiKey
      rw [hLnone, hO]
      simp [truthyStr, ht]
    rw [hkey, henv]
  · intro hL hO
    have hLnone : truthyStr envL = none := by
      rcases hL with h1 | h1 <;> simp [truthyStr, h1]
    have hOnone : truthyStr envO = none := by
      rcases hO with h1 | h1 <;> simp [truthyStr, h1]
    have henv : envApiKey envL envO = none := by
      unfold envApiKey
      rw [hLnone, hOnone]
    rw [hkey, henv]

/-- Witness for C3: `sampleConfig` with both variables set;
`LAHMA_OPENAI_API_KEY` wins. -/
theorem load_config_env_override_priority_witness :
    sectionsWF sampleConfig = true ∧
    ∃ r, load_config (fun _ => true) (fun _ => .value (.map sampleConfig))
        (some "lahma-key") (some "openai-key") (some "config.yaml") = .ok r ∧
      (∀ s, (some "lahma-key" : Option String) = some s → s ≠ "" →
        alGet2 r "openai" "api_key" = some (.str s)) ∧
      (∀ t, ((some "lahma-key" : Option String) = none ∨
          (some "lahma-key" : Option String) = some "") →
        (some "openai-key" : Option String) = some t → t ≠ "" →
        alGet2 r "openai" "api_key" = some (.str t)) ∧
      (((some "lahma-key" : Option String) = none ∨
          (some "lahma-key" : Option String) = some "") →
        ((some "openai-key" : Option String) = none ∨
          (some "openai-key" : Option String) = some "") →
        alGet2 r "openai" "api_key" = alGet2 sampleConfig "openai" "api_key") :=
  ⟨rfl, load_config_env_override_priority sampleConfig
    (some "lahma-key") (some "openai-key") rfl⟩

/-- **C6.** `load_config` raises a configuration error when the
resolved file is invalid YAML; when the file parses to anything other
than a top-level mapping it raises no error and returns the all-default
configuration; when no file is found at all it likewise returns the
all-default configuration without error. -/
theorem load_config_parse_error_and_nonmapping (envL envO : Option String)
    (y : Yaml) (hy : y.isMap = false) :
    load_config (fun _ => true) (fun _ => .parseError) envL envO (some "config.yaml") =
      .error (.lahma (.configError ("Invalid YAML syntax in " ++ "config.yaml"))) ∧
    load_config (fun _ => true) (fun _ => .value y) envL envO (some "config.yaml") =
      .ok (defaultConfig envL envO) ∧
    load_config (fun _ => false) (fun _ => .parseError) envL envO none =
      .ok (defaultConfig envL envO) := by
  refine ⟨rfl, ?_, ?_⟩
  · have hbase : load_config (fun _ => true) (fun _ => .value y) envL envO
        (some "config.yaml") =
        (match applyDefaults envL envO [] with
         | .ok r => .ok r
         | .error e => .error (.py e)) := by
      cases y <;> first | rfl | simp [Yaml.isMap] at hy
    rw [hbase, applyDefaults_nil]
  · have hbase : load_config (fun _ => false) (fun _ => .parseError) envL envO none =
        (match applyDefaults envL envO [] with
         | .ok r => .ok r
         | .error e => .error (.py e)) := rfl
    rw [hbase, applyDefaults_nil]

/-- Witness for C6: a document parsing to a YAML list (non-mapping),
with no environment variables set. -/
theorem load_config_parse_error_and_nonmapping_witness :
    (Yaml.list []).isMap = false ∧
    (load_config (fun _ => true) (fun _ => .parseError) none none (some "config.yaml") =
      .error (.lahma (.configError ("Invalid YAML syntax in " ++ "config.yaml"))) ∧
    load_config (fun _ => true) (fun _ => .value (.list [])) none none (some "config.yaml") =
      .ok (defaultConfig none none) ∧
    load_config (fun _ => false) (fun _ => .parseError) none none none =
      .ok (defaultConfig none none)) :=
  ⟨rfl, load_config_parse_error_and_nonmapping none none (.list []) rfl⟩

/-- **C7.** `find_config_file` given an explicit (non-empty) path that
does not exist raises a configuration error whose message names that
path; given an explicit path that exists it returns it verbatim; given
no argument it checks `config/config.yaml` first, then
`config/config.example.yaml`, and returns `none` only when neither
exists — in exactly that order. -/
theorem find_config_file_resolution (fsExists : String → Bool) (p : String)
    (hp : p ≠ "") :
    (fsExists p = false → find_config_file fsExists (some p) =
      .error (.configError ("Config file specified via --config does not exist: " ++ p))) ∧
    (fsExists p = true → find_config_file fsExists (some p) = .ok (some p)) ∧
    (find_config_file fsExists none =
      if fsExists DEFAULT_CONFIG_PATH then .ok (some DEFAULT_CONFIG_PATH)
      else if fsExists EXAMPLE_CONFIG_PATH then .ok (some EXAMPLE_CONFIG_PATH)
      else .ok none) := by
  have ht : truthyStr (some p) = some p := by simp [truthyStr, hp]
  refine ⟨?_, ?_, ?_⟩
  · intro hf
    unfold find_config_file
    rw [ht]
    simp [hf]
  · intro hf
    unfold find_config_file
    rw [ht]
    simp [hf]
  · unfold find_config_file
    rfl

/-- Witness for C7: a non-empty path that exists nowhere. -/
theorem find_config_file_resolution_witness :
    ((fun _ => false : String → Bool) "missing.yaml" = false →
      find_config_file (fun _ => false) (some "missing.yaml") =
        .error (.configError
          ("Config file specified via --config does not exist: " ++ "missing.yaml"))) ∧
    ((fun _ => false : String → Bool) "missing.yaml" = true →
      find_config_file (fun _ => false) (some "missing.yaml") = .ok (some "missing.yaml")) ∧
    (find_config_file (fun _ => false) none =
      if (fun _ => false : String → Bool) DEFAULT_CONFIG_PATH then .ok (some DEFAULT_CONFIG_PATH)
      else if (fun _ => false : String → Bool) EXAMPLE_CONFIG_PATH then
        .ok (some EXAMPLE_CONFIG_PATH)
      else .ok none) :=
  find_config_file_resolution (fun _ => false) "missing.yaml" (by decide)

/-! ### ESXi target processing -/

theorem parseTarget_no_colon (u : String) (h : splitFirstColon u = none) :
    parseTarget u = .ok (u, 443) := by
  unfold parseTarget
  simp only [h]

theorem processTarget_no_colon (check : String → Int → Bool × String) (u : String)
    (h : splitFirstColon u = none) : processTarget check u = check u 443 := by
  unfold processTarget parseTarget
  simp only [h]

theorem processTarget_with_port (check : String → Int → Bool × String)
    (u h p : String) (n : Int) (h1 : splitFirstColon u = some (h, p))
    (h2 : pyInt p = some n) : processTarget check u = check h n := by
  unfold processTarget parseTarget
  simp only [h1, h2]

theorem processTarget_bad_port (check : String → Int → Bool × String)
    (u h p : String) (h1 : splitFirstColon u = some (h, p)) (h2 : pyInt p = none) :
    processTarget check u =
      (false, "Invalid format" ++ " (expected 'host' or 'host:port').") := by
  unfold processTarget parseTarget
  simp only [h1, h2]
  rfl

/-- The `run` loop records, for every target string in the list, the
result of processing exactly that string (duplicates overwrite with the
same deterministic value). -/
theorem runEsxi_lookup (check : String → Int → Bool × String)
    (targets : List String) (acc : AL) (t : String) :
    alGet (targets.foldl (fun a u => alSet a u (resultEntry check u)) acc) t =
      if t ∈ targets then some (resultEntry check t) else alGet acc t := by
  induction targets generalizing acc with
  | nil => simp
  | cons u rest ih =>
      simp only [List.foldl_cons]
      rw [ih]
      by_cases hr : t ∈ rest
      · simp [hr]
      · by_cases hu : t = u
        · subst hu
          simp [hr, alGet_alSet_self]
        · simp [hr, hu, alGet_alSet_ne acc u t _ hu]

/-- **C4.** The ESXi `run` loop parses each configured target as
`host[:port]` with default port 443 (`"10.0.0.5:8443"` is checked
against host `10.0.0.5`, port `8443`); a target whose port segment is
not an integer is recorded as a failed result whose message contains
`"Invalid format"`, without raising (processing is a total function)
and without preventing any other target from being processed (every
member of the list gets its own recorded result). -/
theorem esxi_run_records_each_target (check : String → Int → Bool × String)
    (targets : List String) (t : String) (ht : t ∈ targets) :
    alGet (runEsxiResults check targets) t = some (resultEntry check t) ∧
    (∀ u, splitFirstColon u = none → processTarget check u = check u 443) ∧
    (∀ u h p n, splitFirstColon u = some (h, p) → pyInt p = some n →
      processTarget check u = check h n) ∧
    (∀ u h p, splitFirstColon u = some (h, p) → pyInt p = none →
      processTarget check u =
        (false, "Invalid format" ++ " (expected 'host' or 'host:port').")) ∧
    processTarget check "10.0.0.5:8443" = check "10.0.0.5" 8443 ∧
    processTarget check "badport:notanumber" =
      (false, "Invalid format" ++ " (expected 'host' or 'host:port').") := by
  refine ⟨?_, fun u h => processTarget_no_colon check u h,
    fun u h p n h1 h2 => processTarget_with_port check u h p n h1 h2,
    fun u h p h1 h2 => processTarget_bad_port check u h p h1 h2, ?_, ?_⟩
  · unfold runEsxiResults
    rw [runEsxi_lookup]
    simp [ht]
  · exact processTarget_with_port check "10.0.0.5:8443" "10.0.0.5" "8443" 8443 rfl rfl
  · exact processTarget_bad_port check "badport:notanumber" "badport" "notanumber" rfl rfl

/-- Witness for C4: a two-target batch containing the malformed
`"badport:notanumber"`; both targets are recorded. -/
theorem esxi_run_records_each_target_witness :
    ("badport:notanumber" ∈ ["10.0.0.5:8443", "badport:notanumber"]) ∧
    (alGet (runEsxiResults (fun h p => (true, h ++ ":" ++ toString p))
        ["10.0.0.5:8443", "badport:notanumber"]) "badport:notanumber" =
      some (resultEntry (fun h p => (true, h ++ ":" ++ toString p)) "badport:notanumber") ∧
    (∀ u, splitFirstColon u = none →
      processTarget (fun h p => (true, h ++ ":" ++ toString p)) u =
        (fun h p => (true, h ++ ":" ++ toString p)) u 443) ∧
    (∀ u h p n, splitFirstColon u = some (h, p) → pyInt p = some n →
      processTarget (fun h p => (true, h ++ ":" ++ toString p)) u =
        (fun h p => (true, h ++ ":" ++ toString p)) h n) ∧
    (∀ u h p, splitFirstColon u = some (h, p) → pyInt p = none →
      processTarget (fun h p => (true, h ++ ":" ++ toString p)) u =
        (false, "Invalid format" ++ " (expected 'host' or 'host:port').")) ∧
    processTarget (fun h p => (true, h ++ ":" ++ toString p)) "10.0.0.5:8443" =
      (fun h p => (true, h ++ ":" ++ toString p)) "10.0.0.5" 8443 ∧
    processTarget (fun h p => (true, h ++ ":" ++ toString p)) "badport:notanumber" =
      (false, "Invalid format" ++ " (expected 'host' or 'host:port').")) :=
  ⟨by simp, esxi_run_records_each_target (fun h p => (true, h ++ ":" ++ toString p))
    ["10.0.0.5:8443", "badport:notanumber"] "badport:notanumber" (by simp)⟩

/-! ### Web fuzzer classification -/

/-- The non-zero-exit message and the timeout message of `run_nuclei`
differ (they diverge within their first eight characters). -/
theorem exit_msg_ne_timeout_msg (x y : String) :
    ("Nuclei process failed with exit code " ++ x ++ "." : String) ≠
      "Nuclei scan process timed out (" ++ y ++ "s)." := by
  intro hcontra
  have hd := congrArg (fun s : String => s.data.take 8) hcontra
  simp only [String.data_append] at hd
  rw [List.append_assoc, List.append_assoc] at hd
  rw [List.take_append_of_le_length (by decide),
    List.take_append_of_le_length (by decide)] at hd
  exact absurd hd (by decide)

/-- **C5.** `run_nuclei` classifies failures into three mutually
distinct exceptions: a non-zero exit code raises `WebFuzzerError`
carrying that exit code in its message; a timeout raises a
`WebFuzzerError` distinct from the non-zero-exit one; a missing
executable raises `EnvironmentError`, distinct from both; and exit
code 0 returns `true` without raising. -/
theorem run_nuclei_failure_classification (c t : Int) (out err : String)
    (hc : c ≠ 0) :
    run_nuclei t (.completed c out err) =
      .error (.webFuzzerError
        ("Nuclei process failed with exit code " ++ toString c ++ ".")) ∧
    run_nuclei t .timedOut =
      .error (.webFuzzerError
        ("Nuclei scan process timed out (" ++ toString t ++ "s).")) ∧
    run_nuclei t .fileNotFound =
      .error (.environmentError
        ("Nuclei executable not found during execution. " ++
         "Please ensure it is installed and in the system PATH.")) ∧
    run_nuclei t (.completed 0 out err) = .ok true ∧
    (LahMaError.webFuzzerError
        ("Nuclei process failed with exit code " ++ toString c ++ ".") ≠
      .webFuzzerError ("Nuclei scan process timed out (" ++ toString t ++ "s).")) ∧
    (∀ m1 m2, LahMaError.webFuzzerError m1 ≠ .environmentError m2) := by
  refine ⟨by simp [run_nuclei, hc], rfl, rfl, rfl, ?_, ?_⟩
  · intro hcontra
    injection hcontra with hmsg
    exact exit_msg_ne_timeout_msg (toString c) (toString t) hmsg
  · intro m1 m2 hcontra
    exact LahMaError.noConfusion hcontra

/-- Witness for C5: exit code 2, timeout 600 s. -/
theorem run_nuclei_failure_classification_witness :
    (2 : Int) ≠ 0 ∧
    (run_nuclei 600 (.completed 2 "" "") =
      .error (.webFuzzerError
        ("Nuclei process failed with exit code " ++ toString (2 : Int) ++ ".")) ∧
    run_nuclei 600 .timedOut =
      .error (.webFuzzerError
        ("Nuclei scan process timed out (" ++ toString (600 : Int) ++ "s).")) ∧
    run_nuclei 600 .fileNotFound =
      .error (.environmentError
        ("Nuclei executable not found during execution. " ++
         "Please ensure it is installed and in the system PATH.")) ∧
    run_nuclei 600 (.completed 0 "" "") = .ok true ∧
    (LahMaError.webFuzzerError
        ("Nuclei process failed with exit code " ++ toString (2 : Int) ++ ".") ≠
      .webFuzzerError ("Nuclei scan process timed out (" ++ toString (600 : Int) ++ "s).")) ∧
    (∀ m1 m2, LahMaError.webFuzzerError m1 ≠ .environmentError m2)) :=
  ⟨by decide, run_nuclei_failure_classification 2 600 "" "" (by decide)⟩

/-- **C8.** `generate_bait_rules` returns exactly the single hardcoded
placeholder rule whenever the API key is absent or the OpenAI client
library is available; when a (non-empty) API key is supplied and the
library is unavailable it raises an environment error instead of
returning. -/
theorem generate_bait_rules_static (openaiAvailable : Bool) (target_tech : String)
    (api_key : Option String) (model : String) :
    ((api_key = none ∨ openaiAvailable = true) →
      generate_bait_rules openaiAvailable target_tech api_key model =
        .ok [[("rule_id", "placeholder_001"),
              ("target_tech", target_tech),
              ("type", "banner_grab"),
              ("decoy_content", "Placeholder " ++ target_tech ++ " Banner - Welcome!"),
              ("action", "log_connection")]]) ∧
    (∀ k, api_key = some k → k ≠ "" → openaiAvailable = false →
      generate_bait_rules openaiAvailable target_tech api_key model =
        .error (.environmentError
          ("OpenAI library is required for dynamic bait generation " ++
           "(API key provided) but not installed."))) := by
  constructor
  · rintro (h | h) <;> subst h <;> simp [generate_bait_rules, truthyStr]
  · intro k hk hne hav
    subst hk
    subst hav
    simp [generate_bait_rules, truthyStr, hne]

/-- Witness for C8: no key with the library available, and a non-empty
key with the library unavailable. -/
theorem generate_bait_rules_static_witness :
    (((none : Option String) = none ∨ false = true) →
      generate_bait_rules false "VMware ESXi" none "gpt-3.5-turbo" =
        .ok [[("rule_id", "placeholder_001"),
              ("target_tech", "VMware ESXi"),
              ("type", "banner_grab"),
              ("decoy_content", "Placeholder " ++ "VMware ESXi" ++ " Banner - Welcome!"),
              ("action", "log_connection")]]) ∧
    (∀ k, (some "sk-key" : Option String) = some k → k ≠ "" → false = false →
      generate_bait_rules false "VMware ESXi" (some "sk-key") "gpt-3.5-turbo" =
        .error (.environmentError
          ("OpenAI library is required for dynamic bait generation " ++
           "(API key provided) but not installed."))) := by
  have h1 := generate_bait_rules_static false "VMware ESXi" none "gpt-3.5-turbo"
  have h2 := generate_bait_rules_static false "VMware ESXi" (some "sk-key") "gpt-3.5-turbo"
  exact ⟨h1.1, h2.2⟩

/-- **C9.** On every exit path of `check_esxi_target` — success, each
classified failure branch, the catch-all branch, and the SDK-missing
precondition (which returns before touching the timeout) — the
process-wide default socket timeout observed after the call equals the
value observed before it: the `finally` block restores the saved
value. -/
theorem check_esxi_target_restores_timeout (pyvmomiAvailable : Bool)
    (host : String) (port timeout : Int) (outcome : ConnectOutcome)
    (st : SockTimeout) :
    (check_esxi_target pyvmomiAvailable host port timeout outcome st).2 = st := by
  cases pyvmomiAvailable <;> cases outcome <;> rfl

/-- **C10.** A syntactically valid top-level mapping binding a
recognized section key (`logging`) to a non-mapping value (`null`)
makes `load_config` raise an `AttributeError` — an escaping built-in
exception, not a configuration error: the loader's tolerance for
non-mapping documents applies only at the top level. -/
theorem load_config_section_nonmapping_escapes :
    load_config (fun _ => true) (fun _ => .value (.map [("logging", .null)])) none none
      (some "config.yaml") = .error (.py .attrError) ∧
    ∀ msg, (Except.error (.py .attrError) : Except LoadError AL) ≠
      .error (.lahma (.configError msg)) := by
  refine ⟨rfl, fun msg hcontra => ?_⟩
  injection hcontra with h
  exact LoadError.noConfusion h

/-- **C1 (code bug).** With the CLI log-file override `"NONE"` and the
configuration's default `logging.file = "lahma.log"`, the dispatcher
passes `"lahma.log"` to `setup_logging` — file logging is *not*
disabled, because line 101's `or` falls back to the configured value
after line 100 maps `"NONE"` to `None`; and the comparison is
case-sensitive, so lowercase `"none"` is treated as a literal file
path.  The no-override baseline behaves identically. -/
theorem cli_log_file_none_not_disabling :
    setupLoggingFileArg (some "NONE") (.str "lahma.log") = some (.str "lahma.log") ∧
    setupLoggingFileArg (some "none") (.str "lahma.log") = some (.str "none") ∧
    setupLoggingFileArg none (.str "lahma.log") = some (.str "lahma.log") :=
  ⟨rfl, rfl, rfl⟩

end LahMa
